import Mathlib

/-!
Verification of the AI-driven cross-platform integration engine.

The repository has two components:
* `APIDiscoveryEngine` (src/engine/components/api_discovery_engine.py) with
  `discover_apis`, `_parse_api_specs` and `get_api_endpoint`;
* `IntegrationLogicLayer` (src/engine/components/integration_logic_layer.py)
  with `load_api_config`, `integrate_api` and `update_api_config`.

We model JSON values with an inductive type `JVal`, HTTP registry responses
with `RegistryResponse`, the configuration file with `FileState`, and logging
with a list of `LogMsg` values.  Python functions become Lean functions over
these types; exceptions that escape a function become `Except` results, and
exceptions that are caught and logged become ordinary return values carrying
the log messages.
-/

set_option autoImplicit false

namespace Engine

/-- A JSON value, as produced by `response.json()` / `json.load`. -/
inductive JVal where
  | null
  | bool (b : Bool)
  | num (n : Int)
  | str (s : String)
  | arr (items : List JVal)
  | obj (fields : List (String × JVal))

/-- A JSON object: a finite mapping from string keys to JSON values,
represented as an association list (first occurrence of a key wins,
mirroring a Python `dict` in which keys are unique). -/
abbrev JObj := List (String × JVal)

/-- Python `d.get(k)` / `d[k]` lookup: the value stored at key `k`, if any. -/
def jget? (o : JObj) (k : String) : Option JVal :=
  (o.find? (fun p => p.1 == k)).map Prod.snd

/-- Python `d.get(k, default)`: defaulted field extraction. -/
def jget (o : JObj) (k : String) (d : JVal) : JVal :=
  (jget? o k).getD d

/-- Python `v == "s"` for a JSON value against a string literal:
true exactly when `v` is that string. -/
def isStr (v : JVal) (s : String) : Bool :=
  match v with
  | .str t => t == s
  | _ => false

/-- Python `"t" in api_data.get("tags", [])` where the tags value is a JSON
list: membership of the string among the list elements. -/
def tagsContain (e : JObj) (t : String) : Bool :=
  match jget e "tags" (.arr []) with
  | .arr items => items.any (fun v => isStr v t)
  | _ => false

/-- Log messages emitted through the `logging` module. -/
inductive LogMsg where
  | discoveryFailed (endpoint : String)
  | endpointFailed (domain : String)
  | integratingOpenapi (name : JVal)
  | integratingSwagger (name : JVal)
  | configNotFound
  | configParseFailed
  | configUpdated (name : String)
  | configUpdateFailed

/-- The observable outcome of the HTTP GET against one registry endpoint in
`discover_apis`:
* `failure`: a transport-level error, or a non-2xx status (in which case
  `response.raise_for_status()` raises `requests.exceptions.RequestException`);
* `successNoApis`: a 2xx response whose JSON body is an object without an
  `"apis"` field (the `if "apis" in data` test fails);
* `success entries`: a 2xx response whose JSON body has an `"apis"` field
  holding a list of raw entry objects. -/
inductive RegistryResponse where
  | failure
  | successNoApis
  | success (entries : List JObj)

/-- `APIDiscoveryEngine._parse_api_specs`: builds the `specs` dictionary from
a raw entry, in insertion order. -/
def parse_api_specs (api_data : JObj) : JObj :=
  let specs : JObj :=
    if tagsContain api_data "openapi" then
      [("type", .str "openapi"), ("url", jget api_data "specUrl" (.str ""))]
    else if tagsContain api_data "swagger" then
      [("type", .str "swagger"), ("url", jget api_data "specUrl" (.str ""))]
    else
      []
  specs ++ [("authentication", jget api_data "authType" (.str "none")),
            ("rate_limits", jget api_data "limits" (.obj []))]

/-- The `api_info` dictionary built for one raw entry inside the
`for api_data in data["apis"]` loop of `discover_apis`. -/
def mkApiInfo (api_data : JObj) : JObj :=
  [("name", jget api_data "name" (.str "")),
   ("endpoint", jget api_data "endpoint" (.str "")),
   ("documentation_url", jget api_data "docUrl" (.str "")),
   ("specs", .obj (parse_api_specs api_data))]

/-- `APIDiscoveryEngine.discover_apis`, parameterised by the responses the
network returns for the configured endpoints (one `(endpoint, response)` pair
per URL in `self.api_endpoints`, in iteration order).  Returns the
`discoveredApis` list together with the error log. -/
def discover_apis : List (String × RegistryResponse) → List JObj × List LogMsg
  | [] => ([], [])
  | (ep, resp) :: rest =>
      let r := discover_apis rest
      match resp with
      | .failure => (r.1, .discoveryFailed ep :: r.2)
      | .successNoApis => r
      | .success entries => (entries.map mkApiInfo ++ r.1, r.2)

/-- The raw entries contributed by one registry response: the `"apis"` list on
success, nothing on a failed response or a body lacking `"apis"`. -/
def entriesOf : RegistryResponse → List JObj
  | .failure => []
  | .successNoApis => []
  | .success entries => entries

/-! ### `urllib.parse.urlparse(...).path`

`get_api_endpoint` calls `urlparse(location).path`.  We embed the path
component of CPython 3.11's `urlparse` (`urllib/parse.py`): the URL is
stripped of leading C0-control/space characters and of every tab, carriage
return and line feed; a leading `scheme:` is split off and lowercased when
the prefix before the first `:` is an ASCII letter followed by scheme
characters; a `//netloc` prefix is split at the next `/`, `?` or `#` and a
bracketed host is validated (a mismatched bracket raises
`ValueError("Invalid IPv6 URL")`, a `[...]` host must be a valid IPv6 or
IPvFuture address per `_check_bracketed_host`/`ipaddress`); the fragment
(after the first `#`) and the query (after the first `?`) are dropped; and
URL parameters (`;` in the last path segment) are split off only when the
scheme is in `uses_params`.  A raised `ValueError` becomes `Except.error`
carrying the message (messages other than `"Invalid IPv6 URL"` are
abbreviated to the constant part of CPython's interpolated text).  The one
check not modelled is `_checknetloc`'s NFKC-normalization scan, which
returns immediately for every ASCII netloc and can raise only for non-ASCII
compatibility characters that normalize to `/?#@:`; Unicode normalization
tables are out of scope here. -/

/-- Characters allowed in a URL scheme after the initial letter
(CPython `scheme_chars`). -/
def isSchemeChar (c : Char) : Bool :=
  c.isAlphanum || c == '+' || c == '-' || c == '.'

/-- The WHATWG C0-control-or-space characters (code points 0x00 to 0x20),
stripped from the front of the URL by `urlsplit`. -/
def isC0ControlOrSpace (c : Char) : Bool :=
  c.toNat ≤ 32

/-- `_UNSAFE_URL_BYTES_TO_REMOVE`: tab, carriage return and line feed are
removed from anywhere in the URL before parsing. -/
def isUnsafeUrlByte (c : Char) : Bool :=
  c == '\t' || c == '\r' || c == '\n'

/-- Python `s.split(sep)` on character lists: splitting the empty string
yields one empty part, and every separator occurrence starts a new part. -/
def pySplit (sep : Char) : List Char → List (List Char)
  | [] => [[]]
  | c :: rest =>
      let r := pySplit sep rest
      if c == sep then [] :: r
      else
        match r with
        | [] => [[c]]
        | h :: t => (c :: h) :: t

/-- Python `s.partition(sep)` restricted to what the callers need: the text
before and after the first occurrence of `sep`, or `none` when `sep` does
not occur. -/
def pyPartition (sep : Char) : List Char → Option (List Char × List Char)
  | [] => none
  | c :: rest =>
      if c == sep then some ([], rest)
      else (pyPartition sep rest).map (fun p => (c :: p.1, p.2))

/-- `ipaddress.IPv4Address._parse_octet`: a non-empty run of at most three
ASCII decimal digits, no leading zeros, value at most 255. -/
def parseOctet (s : List Char) : Option Nat :=
  if s.isEmpty then none
  else if !s.all Char.isDigit then none
  else if s.length > 3 then none
  else if s.length > 1 && s.headD ' ' == '0' then none
  else
    let n := s.foldl (fun acc c => acc * 10 + (c.toNat - '0'.toNat)) 0
    if n > 255 then none else some n

/-- `ipaddress.IPv4Address._ip_int_from_string`: a non-empty string of
exactly four valid dotted octets, as a 32-bit value. -/
def parseIPv4 (s : List Char) : Option Nat :=
  if s.isEmpty then none
  else
    match (pySplit '.' s).mapM parseOctet with
    | some [a, b, c, d] => some (((a * 256 + b) * 256 + c) * 256 + d)
    | _ => none

/-- Python hex digits (`ipaddress._HEX_DIGITS`). -/
def isHexDigitChar (c : Char) : Bool :=
  c.isDigit || ('a' ≤ c && c ≤ 'f') || ('A' ≤ c && c ≤ 'F')

/-- The numeric value of a hex digit. -/
def hexVal (c : Char) : Nat :=
  if c.isDigit then c.toNat - '0'.toNat
  else if 'a' ≤ c && c ≤ 'f' then c.toNat - 'a'.toNat + 10
  else c.toNat - 'A'.toNat + 10

/-- `ipaddress.IPv6Address._parse_hextet`: at most four hex digits;
the empty string fails (Python's `int('', 16)` raises). -/
def parseHextet (s : List Char) : Option Nat :=
  if !s.all isHexDigitChar then none
  else if s.length > 4 then none
  else if s.isEmpty then none
  else some (s.foldl (fun acc c => acc * 16 + hexVal c) 0)

/-- Python `'%x' % n`: lowercase hex digits without leading zeros, used when
an IPv4-style suffix of an IPv6 address is converted to two hextets. -/
def hexChars (n : Nat) : List Char :=
  Nat.toDigits 16 n

/-- `ipaddress.IPv6Address._ip_int_from_string`, validity only: at least two
colons; an IPv4-style last part is converted to two hextets; at most nine
parts; at most one empty interior part (the `::` skip), with an empty
endpoint only next to the skip; without a skip, exactly eight non-empty
hextets; the skip must stand for at least one zero group. -/
def isIPv6Addr (s : List Char) : Bool :=
  if s.isEmpty then false
  else
    let parts := pySplit ':' s
    if parts.length < 3 then false
    else
      let expanded :=
        if (parts.getLastD []).contains '.' then
          (parseIPv4 (parts.getLastD [])).map (fun n =>
            parts.dropLast ++ [hexChars (n / 65536 % 65536), hexChars (n % 65536)])
        else some parts
      match expanded with
      | none => false
      | some parts =>
          if parts.length > 9 then false
          else
            let skips := (List.range parts.length).filter (fun i =>
              decide (0 < i) && decide (i + 1 < parts.length)
                && (parts.getD i [' ']).isEmpty)
            match skips with
            | [] =>
                decide (parts.length = 8)
                && !(parts.headD [' ']).isEmpty
                && !(parts.getLastD [' ']).isEmpty
                && parts.all (fun p => (parseHextet p).isSome)
            | [i] =>
                let headEmpty := (parts.headD [' ']).isEmpty
                let lastEmpty := (parts.getLastD [' ']).isEmpty
                let hi := if headEmpty then i - 1 else i
                let lo₀ := parts.length - i - 1
                let lo := if lastEmpty then lo₀ - 1 else lo₀
                if headEmpty && hi != 0 then false
                else if lastEmpty && lo != 0 then false
                else if hi + lo ≥ 8 then false
                else
                  (parts.take hi).all (fun p => (parseHextet p).isSome)
                  && (parts.drop (parts.length - lo)).all
                      (fun p => (parseHextet p).isSome)
            | _ => false

/-- `ipaddress.IPv6Address` from a string: reject `/`, split a `%scope_id`
at the first `%` (the scope must be non-empty and `%`-free), and validate
the address part. -/
def isIPv6Address (s : List Char) : Bool :=
  if s.contains '/' then false
  else
    match pyPartition '%' s with
    | none => isIPv6Addr s
    | some (addr, scope) =>
        !scope.isEmpty && !scope.contains '%' && isIPv6Addr addr

/-- `urllib.parse._check_bracketed_host`: a host starting with `v` must
match the IPvFuture shape `v[a-fA-F0-9]+\..+`; any other bracketed host must
be accepted by `ipaddress.ip_address` and not be an IPv4 address.  Error
messages keep the constant part of CPython's interpolated text. -/
def checkBracketedHost (hostname : List Char) : Except String Unit :=
  match hostname with
  | 'v' :: t =>
      let hexRun := t.takeWhile isHexDigitChar
      let rest := t.drop hexRun.length
      if !hexRun.isEmpty
          && (match rest with
              | '.' :: r => !r.isEmpty && !r.contains '\n'
              | _ => false) then
        .ok ()
      else
        .error "IPvFuture address is invalid"
  | _ =>
      if !hostname.contains '/' && (parseIPv4 hostname).isSome then
        .error "An IPv4 address cannot be in brackets"
      else if isIPv6Address hostname then
        .ok ()
      else
        .error "does not appear to be an IPv4 or IPv6 address"

/-- `uses_params` from `urllib/parse.py`: the schemes for which `urlparse`
splits `;params` off the path. -/
def uses_params : List String :=
  ["", "ftp", "hdl", "prospero", "http", "imap", "https", "shttp", "rtsp",
   "rtsps", "rtspu", "sip", "sips", "mms", "sftp", "tel"]

/-- Scheme detection in `urlsplit`: when the text before the first `:` is
non-empty, starts with an ASCII letter and consists of scheme characters,
return it lowercased together with the remainder; otherwise the scheme is
empty and the URL is unchanged. -/
def splitUrlScheme (cs : List Char) : String × List Char :=
  match cs.takeWhile (· != ':') with
  | [] => ("", cs)
  | c :: pre =>
      if (c :: pre).length < cs.length && c.isAlpha && (c :: pre).all isSchemeChar
      then (String.mk ((c :: pre).map Char.toLower), cs.drop ((c :: pre).length + 1))
      else ("", cs)

/-- The scheme and path-with-params components of `urlsplit(url)`: clean the
URL, split the scheme, validate a `//netloc` prefix (raising `ValueError`
for a mismatched bracket or an invalid bracketed host), and drop the
fragment and the query. -/
def urlsplitSchemePath (url : String) : Except String (String × List Char) :=
  let cs := url.data.dropWhile isC0ControlOrSpace
  let cs := cs.filter (fun c => !isUnsafeUrlByte c)
  let (scheme, cs) := splitUrlScheme cs
  let afterNetloc : Except String (List Char) :=
    match cs with
    | '/' :: '/' :: rest =>
        let netloc := rest.takeWhile (fun c => c != '/' && c != '?' && c != '#')
        let rest := rest.dropWhile (fun c => c != '/' && c != '?' && c != '#')
        if (netloc.contains '[' && !netloc.contains ']')
            || (netloc.contains ']' && !netloc.contains '[') then
          .error "Invalid IPv6 URL"
        else if netloc.contains '[' && netloc.contains ']' then
          match checkBracketedHost
              (((netloc.dropWhile (· != '[')).drop 1).takeWhile (· != ']')) with
          | .ok _ => .ok rest
          | .error e => .error e
        else .ok rest
    | other => .ok other
  match afterNetloc with
  | .error e => .error e
  | .ok cs =>
      let cs := cs.takeWhile (· != '#')
      let cs := cs.takeWhile (· != '?')
      .ok (scheme, cs)

/-- Split URL parameters off the path, as CPython `urlparse` does via
`_splitparams`: when the path contains `;`, drop everything from the first
`;` at or after the last `/` (or from the first `;` when there is no `/`). -/
def splitParams (cs : List Char) : List Char :=
  if cs.contains ';' then
    if cs.contains '/' then
      let sufLen := (cs.reverse.takeWhile (· != '/')).length
      let pre := cs.take (cs.length - sufLen)
      let suf := cs.drop (cs.length - sufLen)
      if suf.contains ';' then pre ++ suf.takeWhile (· != ';') else cs
    else
      cs.takeWhile (· != ';')
  else cs

/-- `urlparse(url).path`: the path from `urlsplit`, with `;params` split off
only when the scheme is in `uses_params`; a `ValueError` raised by
`urlsplit` propagates. -/
def urlparsePath (url : String) : Except String String :=
  match urlsplitSchemePath url with
  | .error e => .error e
  | .ok (scheme, pathChars) =>
      if uses_params.contains scheme && pathChars.contains ';' then
        .ok (String.mk (splitParams pathChars))
      else
        .ok (String.mk pathChars)

/-- The observable outcome of the HTTP GET in `get_api_endpoint`:
* `failure`: a transport-level error or non-2xx status
  (`raise_for_status` raises);
* `success loc`: a 2xx response whose headers hold `loc` under `"Location"`
  (`none` when the header is missing, so `headers.get("Location", "")`
  yields `""`). -/
inductive HttpResponse where
  | failure
  | success (location : Option String)

/-- An error escaping `get_api_endpoint`: either the `RequestException`
re-raised after being logged, or a `ValueError` raised by `urlparse` on the
`Location` header, which the `except requests.exceptions.RequestException`
clause does not catch, so it propagates without a log line. -/
inductive EndpointError where
  | requestError (log : LogMsg)
  | valueError (msg : String)

/-- `APIDiscoveryEngine.get_api_endpoint`, parameterised by the response the
network returns for `https://{domain}/api`.  A transport/status failure is
logged and re-raised; on a 2xx response the function returns the path of the
`Location` header with `?format=openapi` appended, unless `urlparse` raises
a `ValueError` on that header, which propagates uncaught. -/
def get_api_endpoint (domain : String) (resp : HttpResponse) :
    Except EndpointError String :=
  match resp with
  | .failure => .error (.requestError (.endpointFailed domain))
  | .success location =>
      match urlparsePath (location.getD "") with
      | .ok p => .ok (p ++ "?format=openapi")
      | .error msg => .error (.valueError msg)

/-! ### IntegrationLogicLayer -/

/-- The in-memory `api_map`: API name → configuration object. -/
abbrev ApiMap := List (String × JObj)

/-- Python `self.api_map[name] = new_config` on a dict: replace the binding
for `name` when present, otherwise append it. -/
def mapSet (m : ApiMap) (k : String) (v : JObj) : ApiMap :=
  match m with
  | [] => [(k, v)]
  | (k₁, v₁) :: rest =>
      if k₁ == k then (k, v) :: rest else (k₁, v₁) :: mapSet rest k v

/-- Python `self.api_map[name]` / `name in self.api_map` on a dict. -/
def mapFind? (m : ApiMap) (k : String) : Option JObj :=
  (m.find? (fun p => p.1 == k)).map Prod.snd

/-- Membership of a JSON value among the string keys of the map, as tested by
`api_info["name"] in self.api_map`: only a string value can match a key. -/
def mapFindVal? (m : ApiMap) (v : JVal) : Option JObj :=
  match v with
  | .str s => mapFind? m s
  | _ => none

/-- The contents of `config/api_mapping.json` as seen by `open`/`json.load`:
absent (`FileNotFoundError`), present but not valid JSON
(`json.JSONDecodeError`), or a valid JSON object mapping names to
configurations. -/
inductive FileState where
  | absent
  | invalid
  | valid (m : ApiMap)

/-- `IntegrationLogicLayer.load_api_config`: replace the in-memory map with
the file's contents; a missing file or a JSON parse error is logged and the
prior map is kept. -/
def load_api_config (file : FileState) (api_map : ApiMap) :
    ApiMap × List LogMsg :=
  match file with
  | .absent => (api_map, [.configNotFound])
  | .invalid => (api_map, [.configParseFailed])
  | .valid m => (m, [])

/-- `IntegrationLogicLayer.integrate_api`: look the record's `"name"` up in
the in-memory map and dispatch on the stored config's `"type"`.  Accessing
`api_info["name"]` on a record without that key raises `KeyError`
(`Except.error`); otherwise the map is returned unchanged together with the
log lines the integration hooks emitted. -/
def integrate_api (api_map : ApiMap) (api_info : JObj) :
    Except Unit (ApiMap × List LogMsg) :=
  match jget? api_info "name" with
  | none => .error ()
  | some nameVal =>
      match mapFindVal? api_map nameVal with
      | none => .ok (api_map, [])
      | some config =>
          match jget? config "type" with
          | some (.str "openapi") => .ok (api_map, [.integratingOpenapi nameVal])
          | some (.str "swagger") => .ok (api_map, [.integratingSwagger nameVal])
          | _ => .ok (api_map, [])

/-- The outcome of the `open`/`json.dump` step of `update_api_config`:
either the write succeeds, or it fails, leaving the file in some state
`leftover` (untouched when `open` itself failed, possibly truncated when the
dump failed midway). -/
inductive WriteOutcome where
  | ok
  | failed (leftover : FileState)

/-- `IntegrationLogicLayer.update_api_config`: store `new_config` under
`name` in the in-memory map, then overwrite the configuration file with the
serialization of the whole map.  Any failure is caught and logged; the
in-memory assignment precedes the write and is never rolled back. -/
def update_api_config (w : WriteOutcome) (name : String) (new_config : JObj)
    (api_map : ApiMap) : ApiMap × FileState × List LogMsg :=
  let m := mapSet api_map name new_config
  match w with
  | .ok => (m, .valid m, [.configUpdated name])
  | .failed leftover => (m, leftover, [.configUpdateFailed])

/-! ### Helper lemmas -/

/-- Looking a key up right after `mapSet` stored a value under it yields that
value (Python dict assignment followed by lookup). -/
theorem mapFind?_mapSet_self (m : ApiMap) (k : String) (v : JObj) :
    mapFind? (mapSet m k v) k = some v := by
  induction m with
  | nil => simp [mapSet, mapFind?]
  | cons hd tl ih =>
      obtain ⟨k₁, v₁⟩ := hd
      by_cases h : k₁ == k
      · simp [mapSet, mapFind?, h]
      · simp only [mapSet, h, Bool.false_eq_true, if_false]
        simpa [mapFind?, h] using ih

/-- The record list produced by `discover_apis` is the concatenation, in
registry order, of each response's entries mapped through `mkApiInfo`. -/
theorem discover_apis_fst_eq (rs : List (String × RegistryResponse)) :
    (discover_apis rs).1 = ((rs.map (fun p => entriesOf p.2)).flatten).map mkApiInfo := by
  induction rs with
  | nil => rfl
  | cons hd tl ih =>
      obtain ⟨ep, resp⟩ := hd
      cases resp <;> simp [discover_apis, entriesOf, ih]

/-! ### Claims -/

/-- C1: For every sequence of registry responses, `discover_apis` returns
exactly one record per entry of each successful response's `"apis"` list, in
registry order and preserving entry order within each registry; each record
has `name`, `endpoint` and `documentation_url` taken from the entry's
`"name"`, `"endpoint"` and `"docUrl"` fields with the empty string as default
when the field is missing, and a response whose JSON body lacks an `"apis"`
field contributes zero records. -/
theorem discover_apis_one_record_per_entry (rs : List (String × RegistryResponse)) :
    (discover_apis rs).1 = ((rs.map (fun p => entriesOf p.2)).flatten).map mkApiInfo
    ∧ (∀ e : JObj,
        jget? (mkApiInfo e) "name" = some (jget e "name" (.str ""))
        ∧ jget? (mkApiInfo e) "endpoint" = some (jget e "endpoint" (.str ""))
        ∧ jget? (mkApiInfo e) "documentation_url" = some (jget e "docUrl" (.str "")))
    ∧ (∀ ep, (discover_apis [(ep, RegistryResponse.successNoApis)]).1 = []) := by
  refine ⟨discover_apis_fst_eq rs, fun e => ⟨rfl, rfl, rfl⟩, fun ep => rfl⟩

/-- C2: A registry endpoint whose HTTP GET fails at the transport level or
returns a non-2xx status is logged, contributes no records, and the remaining
endpoints are still processed: the record list is the same as if the failed
endpoint were not there, and the failure log entry is present.  (That
`discover_apis` is a total Lean function returning the records of the other
registries embodies "the call never aborts or raises".) -/
theorem discover_apis_failure_skipped (pre post : List (String × RegistryResponse))
    (ep : String) :
    (discover_apis (pre ++ (ep, RegistryResponse.failure) :: post)).1
      = (discover_apis (pre ++ post)).1
    ∧ LogMsg.discoveryFailed ep
        ∈ (discover_apis (pre ++ (ep, RegistryResponse.failure) :: post)).2 := by
  induction pre with
  | nil => exact ⟨rfl, List.mem_cons_self _ _⟩
  | cons hd tl ih =>
      obtain ⟨ih1, ih2⟩ := ih
      obtain ⟨e, r⟩ := hd
      cases r with
      | failure => exact ⟨ih1, List.mem_cons_of_mem _ ih2⟩
      | successNoApis => exact ⟨ih1, ih2⟩
      | success entries =>
          exact ⟨by simp [discover_apis, ih1], ih2⟩

/-- C3: `_parse_api_specs` gives the specs dictionary type `"openapi"` and the
entry's `"specUrl"` (default `""`) as url when `"openapi"` is among the tags;
otherwise type `"swagger"` with the same url when `"swagger"` is among the
tags; otherwise neither a `"type"` nor a `"url"` key; and in every case
authentication is the entry's `"authType"` defaulting to `"none"` and
rate_limits is the entry's `"limits"` defaulting to the empty mapping. -/
theorem parse_api_specs_fields (e : JObj) :
    (tagsContain e "openapi" = true →
        jget? (parse_api_specs e) "type" = some (.str "openapi")
        ∧ jget? (parse_api_specs e) "url" = some (jget e "specUrl" (.str "")))
    ∧ (tagsContain e "openapi" = false → tagsContain e "swagger" = true →
        jget? (parse_api_specs e) "type" = some (.str "swagger")
        ∧ jget? (parse_api_specs e) "url" = some (jget e "specUrl" (.str "")))
    ∧ (tagsContain e "openapi" = false → tagsContain e "swagger" = false →
        jget? (parse_api_specs e) "type" = none
        ∧ jget? (parse_api_specs e) "url" = none)
    ∧ jget? (parse_api_specs e) "authentication" = some (jget e "authType" (.str "none"))
    ∧ jget? (parse_api_specs e) "rate_limits" = some (jget e "limits" (.obj [])) := by
  refine ⟨fun h1 => ?_, fun h1 h2 => ?_, fun h1 h2 => ?_, ?_, ?_⟩
  · simp [parse_api_specs, h1, jget?]
  · simp [parse_api_specs, h1, h2, jget?]
  · simp [parse_api_specs, h1, h2, jget?]
  · by_cases h1 : tagsContain e "openapi" <;>
      by_cases h2 : tagsContain e "swagger" <;>
      simp [parse_api_specs, h1, h2, jget?]
  · by_cases h1 : tagsContain e "openapi" <;>
      by_cases h2 : tagsContain e "swagger" <;>
      simp [parse_api_specs, h1, h2, jget?]

/-- C3 witness: the theorem applied to an entry tagged `"openapi"` and to an
entry with no recognized tag. -/
theorem parse_api_specs_fields_witness :
    (jget? (parse_api_specs [("tags", .arr [.str "openapi"]),
                             ("specUrl", .str "http://x/spec.json")]) "type"
        = some (.str "openapi")
      ∧ jget? (parse_api_specs [("tags", .arr [.str "openapi"]),
                                ("specUrl", .str "http://x/spec.json")]) "url"
        = some (.str "http://x/spec.json"))
    ∧ (jget? (parse_api_specs [("authType", .str "oauth")]) "type" = none
      ∧ jget? (parse_api_specs [("authType", .str "oauth")]) "url" = none) :=
  ⟨(parse_api_specs_fields _).1 rfl, (parse_api_specs_fields _).2.2.1 rfl rfl⟩

/-- C4 counterexample: on a 2xx response whose `Location` header is `//[x`,
`get_api_endpoint` raises `urlparse`'s `ValueError("Invalid IPv6 URL")` even
though the HTTP GET succeeded, so "raises if and only if the HTTP GET fails
at the transport level or returns a non-2xx status" is false. -/
theorem get_api_endpoint_raises_without_http_failure :
    get_api_endpoint "example.com" (.success (some "//[x"))
      = .error (.valueError "Invalid IPv6 URL") := rfl

/-- C4 (amended): `get_api_endpoint` raises exactly when the HTTP GET fails
at the transport level or returns a non-2xx status (the error propagates
after being logged) or when `urlparse` raises a `ValueError` on the
response's `Location` header (which propagates uncaught, since only
`RequestException` is caught); on a 2xx response with a parseable `Location`
it returns that header's URL path component with `?format=openapi` appended,
so `Location: /v2/spec` yields `/v2/spec?format=openapi`. -/
theorem get_api_endpoint_spec_amended (domain : String) :
    get_api_endpoint domain .failure
      = .error (.requestError (.endpointFailed domain))
    ∧ (∀ location p, urlparsePath (location.getD "") = .ok p →
        get_api_endpoint domain (.success location) = .ok (p ++ "?format=openapi"))
    ∧ (∀ location msg, urlparsePath (location.getD "") = .error msg →
        get_api_endpoint domain (.success location) = .error (.valueError msg))
    ∧ (∀ location, (∃ e, get_api_endpoint domain (.success location) = .error e)
        ↔ ∃ msg, urlparsePath (location.getD "") = .error msg)
    ∧ get_api_endpoint domain (.success (some "/v2/spec"))
        = .ok "/v2/spec?format=openapi" := by
  refine ⟨rfl, fun location p h => by simp [get_api_endpoint, h],
          fun location msg h => by simp [get_api_endpoint, h],
          fun location => ?_, rfl⟩
  cases h : urlparsePath (location.getD "") with
  | ok p => simp [get_api_endpoint, h]
  | error msg => simp [get_api_endpoint, h]

/-- C4 witness: the amended theorem applied at concrete inputs: a parseable
`Location` header and one with a mismatched bracket in its netloc. -/
theorem get_api_endpoint_spec_amended_witness :
    get_api_endpoint "api.example.org" (.success (some "/base/path"))
      = .ok ("/base/path" ++ "?format=openapi")
    ∧ get_api_endpoint "api.example.org" (.success (some "//[z"))
      = .error (.valueError "Invalid IPv6 URL") :=
  ⟨(get_api_endpoint_spec_amended "api.example.org").2.1 (some "/base/path")
      "/base/path" rfl,
   (get_api_endpoint_spec_amended "api.example.org").2.2.1 (some "//[z")
      "Invalid IPv6 URL" rfl⟩

/-- C5: `update_api_config` stores `new_config` under `name` in the in-memory
map and, when the write succeeds, overwrites the configuration file with the
serialization of the entire in-memory map (a full rewrite: the resulting file
state is exactly `valid` of the whole updated map, independent of the prior
file contents); a failing write is logged, and for every outcome the call
returns normally with the updated map (it never propagates an error). -/
theorem update_api_config_spec (name : String) (new_config : JObj) (m : ApiMap) :
    ((update_api_config .ok name new_config m).1 = mapSet m name new_config
      ∧ (update_api_config .ok name new_config m).2.1
          = .valid (mapSet m name new_config)
      ∧ (update_api_config .ok name new_config m).2.2 = [.configUpdated name])
    ∧ (∀ leftover, (update_api_config (.failed leftover) name new_config m).2.2
        = [.configUpdateFailed])
    ∧ (∀ w, mapFind? (update_api_config w name new_config m).1 name
        = some new_config) := by
  refine ⟨⟨rfl, rfl, rfl⟩, fun leftover => rfl, fun w => ?_⟩
  cases w <;> exact mapFind?_mapSet_self m name new_config

/-- C6: `load_api_config` leaves the in-memory map unchanged when the
configuration file is absent or not valid JSON, logging in each case; the map
stays empty when the first load fails, and a failed load after a successful
one retains the previously loaded map. -/
theorem load_api_config_keeps_map (m : ApiMap) :
    load_api_config .absent m = (m, [.configNotFound])
    ∧ load_api_config .invalid m = (m, [.configParseFailed])
    ∧ (load_api_config .absent ([] : ApiMap)).1 = []
    ∧ (load_api_config .invalid ([] : ApiMap)).1 = []
    ∧ (∀ prev, (load_api_config .invalid (load_api_config (.valid prev) m).1).1
        = prev) := by
  exact ⟨rfl, rfl, rfl, rfl, fun prev => rfl⟩

/-- C7: Round trip through the configuration file: loading, then a successful
`update_api_config "svc" {"type": "openapi"}`, then a fresh load from the
written file yields a map whose entry for `"svc"` is `{"type": "openapi"}`. -/
theorem config_round_trip (f₀ : FileState) (m₀ : ApiMap) :
    mapFind?
      (load_api_config
        (update_api_config .ok "svc" [("type", .str "openapi")]
          (load_api_config f₀ m₀).1).2.1
        ([] : ApiMap)).1
      "svc"
      = some [("type", .str "openapi")] := by
  exact mapFind?_mapSet_self _ _ _

/-- C8: `integrate_api` looks the record's name up in the in-memory map: an
absent name dispatches nothing; a present name dispatches on the stored
config's `"type"`, invoking the OpenAPI hook for `"openapi"`, the Swagger
hook for `"swagger"`, and nothing for any other (or missing) value; in every
case the in-memory map is returned unchanged. -/
theorem integrate_api_dispatch (m : ApiMap) :
    (∀ info v, jget? info "name" = some v → mapFindVal? m v = none →
        integrate_api m info = .ok (m, []))
    ∧ (∀ info v config, jget? info "name" = some v → mapFindVal? m v = some config →
        jget? config "type" = some (.str "openapi") →
        integrate_api m info = .ok (m, [.integratingOpenapi v]))
    ∧ (∀ info v config, jget? info "name" = some v → mapFindVal? m v = some config →
        jget? config "type" = some (.str "swagger") →
        integrate_api m info = .ok (m, [.integratingSwagger v]))
    ∧ (∀ info v config, jget? info "name" = some v → mapFindVal? m v = some config →
        jget? config "type" ≠ some (.str "openapi") →
        jget? config "type" ≠ some (.str "swagger") →
        integrate_api m info = .ok (m, []))
    ∧ (∀ info r, integrate_api m info = .ok r → r.1 = m) := by
  refine ⟨fun info v h1 h2 => ?_, fun info v config h1 h2 h3 => ?_,
          fun info v config h1 h2 h3 => ?_, fun info v config h1 h2 h3 h4 => ?_,
          fun info r h => ?_⟩
  · simp [integrate_api, h1, h2]
  · simp [integrate_api, h1, h2, h3]
  · simp [integrate_api, h1, h2, h3]
  · simp only [integrate_api, h1, h2]
  · unfold integrate_api at h
    split at h
    · simp at h
    · split at h
      · injection h with h2
        rw [← h2]
      · split at h <;> (injection h with h2; rw [← h2])

/-- C8 witness: the theorem applied to an absent name, to configs of type
`"openapi"`, `"swagger"` and `"other"`, and to the map-preservation part. -/
theorem integrate_api_dispatch_witness :
    integrate_api [("B", [])] [("name", .str "A")] = .ok ([("B", [])], [])
    ∧ integrate_api [("A", [("type", .str "openapi")])] [("name", .str "A")]
        = .ok ([("A", [("type", .str "openapi")])], [.integratingOpenapi (.str "A")])
    ∧ integrate_api [("A", [("type", .str "swagger")])] [("name", .str "A")]
        = .ok ([("A", [("type", .str "swagger")])], [.integratingSwagger (.str "A")])
    ∧ integrate_api [("A", [("type", .str "other")])] [("name", .str "A")]
        = .ok ([("A", [("type", .str "other")])], []) :=
  ⟨(integrate_api_dispatch _).1 _ _ rfl rfl,
   (integrate_api_dispatch _).2.1 _ _ _ rfl rfl rfl,
   (integrate_api_dispatch _).2.2.1 _ _ _ rfl rfl rfl,
   (integrate_api_dispatch _).2.2.2.1 _ _ _ rfl rfl
     (by simp [jget?]) (by simp [jget?])⟩

/-- C9: `update_api_config` is not atomic with respect to its in-memory
state: when the write fails, the in-memory map nevertheless contains `name`
mapped to `new_config` afterwards (the memory update precedes the write and
is never rolled back), while the file is left in whatever state the failed
write produced. -/
theorem update_api_config_memory_not_rolled_back (name : String)
    (new_config : JObj) (m : ApiMap) (leftover : FileState) :
    mapFind? (update_api_config (.failed leftover) name new_config m).1 name
      = some new_config
    ∧ (update_api_config (.failed leftover) name new_config m).2.1 = leftover :=
  ⟨mapFind?_mapSet_self m name new_config, rfl⟩

/-- C10: `integrate_api` indexes its argument with the key `"name"`
unconditionally, so a record without a `"name"` key makes it raise `KeyError`;
and every record produced by `discover_apis` carries a `"name"` key, so on
such records `integrate_api` never raises. -/
theorem integrate_api_name_key (m : ApiMap) (info : JObj)
    (rs : List (String × RegistryResponse)) :
    (jget? info "name" = none → integrate_api m info = .error ())
    ∧ (∀ r, r ∈ (discover_apis rs).1 → ∃ v, jget? r "name" = some v)
    ∧ (∀ r, r ∈ (discover_apis rs).1 → ∀ m₁, integrate_api m₁ r ≠ .error ()) := by
  have hname : ∀ e : JObj, jget? (mkApiInfo e) "name" = some (jget e "name" (.str "")) :=
    fun e => rfl
  have hmem : ∀ r, r ∈ (discover_apis rs).1 → ∃ e, r = mkApiInfo e := by
    intro r hr
    rw [discover_apis_fst_eq] at hr
    obtain ⟨e, _, he⟩ := List.mem_map.mp hr
    exact ⟨e, he.symm⟩
  refine ⟨fun h => ?_, fun r hr => ?_, fun r hr m₁ => ?_⟩
  · simp [integrate_api, h]
  · obtain ⟨e, rfl⟩ := hmem r hr
    exact ⟨_, hname e⟩
  · obtain ⟨e, rfl⟩ := hmem r hr
    simp only [integrate_api, hname e]
    split
    · simp
    · split <;> simp

/-- C10 witness: a record without a `"name"` key makes `integrate_api` raise,
while the record `discover_apis` builds from the empty raw entry does not. -/
theorem integrate_api_name_key_witness :
    integrate_api [] [] = .error ()
    ∧ integrate_api [] (mkApiInfo []) ≠ .error () :=
  ⟨(integrate_api_name_key [] [] []).1 rfl,
   (integrate_api_name_key [] [] [("e", .success [[]])]).2.2 (mkApiInfo [])
     (List.mem_singleton.mpr rfl) []⟩

end Engine
